import Mathlib

/-!
Verification of the superUser launcher (superUser.c) against its
natural-language specification.

The C program is embedded shallowly:

* `Options` mirrors the bit-field `options` struct.
* Command-line parsing (`wmain`'s option loop, superUser.c lines 253-290)
  is modelled over a list of argument tokens, each a list of characters;
  `parseFlags` is the inner character loop and `parseArgs` the outer
  argument loop.
* Every external Windows / tokens.c call made by
  `createTrustedInstallerProcess` and `wmain` is given its outcome by an
  `Env` record, and the functions are embedded as pure functions that also
  emit a trace of `Event`s in the order the C code performs the calls.
  Temporal claims (suspension, resume ordering, handle cleanup) are stated
  over these traces.
-/

namespace SuperUser

/-- The `options` bit-field struct (superUser.c lines 19-24). -/
structure Options where
  bReturnCode : Bool := false
  bSeamless : Bool := false
  bVerbose : Bool := false
  bWait : Bool := false
deriving DecidableEq, Repr

/-- The zero-initialised global `options` value. -/
def Options.default : Options := {}

/-- Outcome of scanning the characters of one option token (the inner
`while ((opt = pwszArgument[j]))` loop, superUser.c lines 258-283):
either all characters were recognised flags (`done`), or an `h` was seen
(help, `errCode = -1`, `goto done_params`), or an unknown character was
seen (`errCode = 1`, `goto done_params`). -/
inductive TokStep where
  | done (opts : Options)
  | helpStop (opts : Options)
  | invalidStop (opts : Options)
deriving DecidableEq, Repr

/-- The inner option-character loop (superUser.c lines 258-283).  The C
`switch` compares each character against the lowercase literals
`'h' 'r' 's' 'v' 'w'` only. -/
def parseFlags (opts : Options) : List Char → TokStep
  | [] => TokStep.done opts
  | c :: rest =>
    if c = 'h' then TokStep.helpStop opts
    else if c = 'r' then parseFlags { opts with bReturnCode := true } rest
    else if c = 's' then parseFlags { opts with bSeamless := true } rest
    else if c = 'v' then parseFlags { opts with bVerbose := true } rest
    else if c = 'w' then parseFlags { opts with bWait := true } rest
    else TokStep.invalidStop opts

/-- Outcome of the whole argument loop: parsing ran to completion with a
possibly-found command tail (`ok`), or stopped on `h` (help) or on an
invalid option. The command tail is the list of remaining tokens starting
at the first non-option token (the C code keeps a pointer into the raw
command line; we keep the token suffix). -/
inductive ParseResult where
  | ok (opts : Options) (cmd : Option (List (List Char)))
  | help (opts : Options)
  | invalid (opts : Options)
deriving DecidableEq, Repr

/-- The outer argument loop (superUser.c lines 253-290).  A token is
treated as an option group only when it is at least two characters long
and starts with `/` or `-` (`(*pwszArgument == L'/' || *pwszArgument == L'-')
&& pwszArgument[1]`); otherwise it is the first non-option token and the
command starts there. -/
def parseArgs (opts : Options) : List (List Char) → ParseResult
  | [] => ParseResult.ok opts none
  | tok :: rest =>
    match tok with
    | c1 :: c2 :: cs =>
      if c1 = '/' ∨ c1 = '-' then
        match parseFlags opts (c2 :: cs) with
        | TokStep.done opts2 => parseArgs opts2 rest
        | TokStep.helpStop opts2 => ParseResult.help opts2
        | TokStep.invalidStop opts2 => ParseResult.invalid opts2
      else ParseResult.ok opts (some (tok :: rest))
    | _ => ParseResult.ok opts (some (tok :: rest))

/-- `EXIT_CODE_BASE` (superUser.c line 43). -/
def EXIT_CODE_BASE : Int := 1000000

/-- `getExitCode` (superUser.c lines 216-224), with the globals
`options` and `nChildExitCode` passed explicitly. -/
def getExitCode (opts : Options) (nChildExitCode : Int) (code : Int) : Int :=
  let code := if code = -1 then 0 else code
  if opts.bReturnCode then
    if code ≠ 0 then -(EXIT_CODE_BASE + code) else nChildExitCode
  else code

/-- Conversion of a 32-bit unsigned exit code (`DWORD dwExitCode`) to the
C `int` global `nChildExitCode = dwExitCode` (two's-complement). -/
def intOfDword (n : Nat) : Int :=
  if n % 4294967296 < 2147483648 then ((n % 4294967296 : Nat) : Int)
  else ((n % 4294967296 : Nat) : Int) - 4294967296

/-- The kernel handles manipulated by `createTrustedInstallerProcess`:
the TrustedInstaller process handle `hTIProcess`, its token `hTIToken`,
the created child's process/thread handles (`processInfo`), and the
child's own token `hProcessToken`. -/
inductive Handle where
  | tiProcess
  | tiToken
  | childProcess
  | childThread
  | childToken
deriving DecidableEq, Repr

/-- One external call performed by `wmain` / `createTrustedInstallerProcess`,
in program order.  Constructors carry the data relevant to the claims:
error codes returned, flags passed, which token was handed to
`CreateProcessAsUser`, and which handles are closed. -/
inductive Event where
  | printHelp
  | invalidOptionError
  | requiresWError
  | acquireSeDebug (err : Int)
  | createSystemContext (err : Int)
  | getTIProcess (err : Int)
  | getTIToken (err : Int)
  | setTokenSessionId (sid : Nat) (ok : Bool)
  | setAllPrivileges (h : Handle) (verbose : Bool)
  | initAttrList
  | updateAttrParentProcess
  | createProcess (token : Option Handle) (flags : Nat) (ok : Bool)
  | deleteAttrList
  | closeHandle (h : Handle)
  | openProcessToken (ok : Bool)
  | resumeThread
  | waitForChild
  | getExitCodeProcess (ok : Bool) (code : Nat)
  | printErrorProcessCreation (err : Nat)
deriving DecidableEq, Repr

/-- Outcomes of the external calls (tokens.c functions and Win32 APIs).
Error-code fields hold the `int` the call returns (`0` = success);
`activeConsoleSessionId` is the `DWORD` returned by
`WTSGetActiveConsoleSessionId` (`4294967295 = (DWORD) -1` meaning no
active session); `childExitCode` is the `DWORD` filled by
`GetExitCodeProcess`. -/
structure Env where
  seDebugResult : Int
  sysContextResult : Int
  tiProcResult : Int
  tiTokenResult : Int
  activeConsoleSessionId : Nat
  setTokenInfoOk : Bool
  createOk : Bool
  createError : Nat
  openChildTokenOk : Bool
  getExitCodeOk : Bool
  childExitCode : Nat
deriving Repr

/-- `CREATE_SUSPENDED` (winbase.h, `0x00000004`). -/
def CREATE_SUSPENDED : Nat := 4

/-- `CREATE_NEW_CONSOLE` (winbase.h, `0x00000010`). -/
def CREATE_NEW_CONSOLE : Nat := 16

/-- `EXTENDED_STARTUPINFO_PRESENT` (winbase.h, `0x00080000`). -/
def EXTENDED_STARTUPINFO_PRESENT : Nat := 524288

/-- Result of `createTrustedInstallerProcess`: the returned error code,
the value stored into the global `nChildExitCode` (if any), and the trace
of external calls. -/
structure CTIResult where
  errCode : Int
  childCode : Option Nat
  trace : List Event
deriving Repr

/-- `createTrustedInstallerProcess` (superUser.c lines 47-167), embedded
over `Env` with an event trace.  Control flow mirrors the C function:
open the TrustedInstaller process; in seamless mode derive its token
(closing the process handle and failing fast on error), rebind the
session id when one is active, and enable all privileges on the token; in
non-seamless mode build the parent-process attribute list and pass
`CREATE_SUSPENDED | EXTENDED_STARTUPINFO_PRESENT | CREATE_NEW_CONSOLE`;
create the process, release token/attribute-list/process-handle, then in
non-seamless mode customize the child's own token and resume its thread;
optionally wait and record the exit code; finally close the child
handles. -/
def createTrustedInstallerProcess (opts : Options) (env : Env) : CTIResult :=
  if env.tiProcResult ≠ 0 then
    { errCode := env.tiProcResult, childCode := none,
      trace := [Event.getTIProcess env.tiProcResult] }
  else if opts.bSeamless ∧ env.tiTokenResult ≠ 0 then
    { errCode := env.tiTokenResult, childCode := none,
      trace := [Event.getTIProcess 0, Event.getTIToken env.tiTokenResult,
        Event.closeHandle Handle.tiProcess] }
  else
    let seamlessEvents : List Event :=
      if opts.bSeamless then
        Event.getTIToken 0 ::
          ((if env.activeConsoleSessionId ≠ 4294967295 then
              [Event.setTokenSessionId env.activeConsoleSessionId env.setTokenInfoOk]
            else []) ++
            [Event.setAllPrivileges Handle.tiToken opts.bVerbose])
      else []
    let attrEvents : List Event :=
      if !opts.bSeamless then [Event.initAttrList, Event.updateAttrParentProcess]
      else []
    let dwCreationFlags : Nat :=
      if !opts.bSeamless then
        CREATE_SUSPENDED ||| EXTENDED_STARTUPINFO_PRESENT ||| CREATE_NEW_CONSOLE
      else 0
    let hToken : Option Handle :=
      if opts.bSeamless then some Handle.tiToken else none
    let cleanupEvents : List Event :=
      (if opts.bSeamless then [Event.closeHandle Handle.tiToken]
       else [Event.deleteAttrList]) ++ [Event.closeHandle Handle.tiProcess]
    let preEvents : List Event :=
      Event.getTIProcess 0 :: seamlessEvents ++ attrEvents ++
        [Event.createProcess hToken dwCreationFlags env.createOk] ++ cleanupEvents
    if env.createOk then
      let postCreateEvents : List Event :=
        if !opts.bSeamless then
          [Event.openProcessToken env.openChildTokenOk,
           Event.setAllPrivileges Handle.childToken opts.bVerbose,
           Event.closeHandle Handle.childToken,
           Event.resumeThread]
        else []
      let waitEvents : List Event :=
        if opts.bWait then
          [Event.waitForChild,
           Event.getExitCodeProcess env.getExitCodeOk env.childExitCode]
        else []
      { errCode := 0,
        childCode :=
          if opts.bWait && env.getExitCodeOk then some env.childExitCode else none,
        trace := preEvents ++ postCreateEvents ++ waitEvents ++
          [Event.closeHandle Handle.childProcess, Event.closeHandle Handle.childThread] }
    else
      { errCode := 4, childCode := none,
        trace := preEvents ++ [Event.printErrorProcessCreation env.createError] }

/-- Result of `wmain`: the process exit code (value of
`getExitCode(errCode)`), the final internal error code, the final value
of the global `nChildExitCode`, the command line chosen for execution
(`none` on paths that never reach it), and the event trace. -/
structure WmainResult where
  exit : Int
  errCode : Int
  childCode : Int
  command : Option (List (List Char))
  trace : List Event
deriving Repr

/-- The final value of the global `nChildExitCode`: the recorded `DWORD`
converted to `int`, or the initial `0` when nothing was recorded. -/
def childCodeToInt : Option Nat → Int
  | some v => intOfDword v
  | none => 0

/-- The default command `L"cmd.exe"` (superUser.c line 303). -/
def defaultCommand : List (List Char) :=
  [['c', 'm', 'd', '.', 'e', 'x', 'e']]

/-- The portion of `wmain` (superUser.c lines 295-318) after option
parsing succeeded with options `opts` and command tail `cmdOpt`: the
`/r`-or-`/s`-requires-`/w` consistency check, then
`acquireSeDebugPrivilege`, then (seamless only) `createSystemContext`,
then `createTrustedInstallerProcess`, and finally `getExitCode`. -/
def wmainAfterParse (opts : Options) (cmdOpt : Option (List (List Char)))
    (env : Env) : WmainResult :=
  if (opts.bReturnCode || opts.bSeamless) && !opts.bWait then
    { exit := getExitCode opts 0 1, errCode := 1, childCode := 0,
      command := none, trace := [Event.requiresWError] }
  else
    let cmd := cmdOpt.getD defaultCommand
    let e1 := env.seDebugResult
    let stepB : Int × List Event :=
      if e1 = 0 ∧ opts.bSeamless then
        (env.sysContextResult, [Event.createSystemContext env.sysContextResult])
      else (e1, [])
    if stepB.1 = 0 then
      let r := createTrustedInstallerProcess opts env
      let nChild : Int := childCodeToInt r.childCode
      { exit := getExitCode opts nChild r.errCode, errCode := r.errCode,
        childCode := nChild, command := some cmd,
        trace := Event.acquireSeDebug e1 :: stepB.2 ++ r.trace }
    else
      { exit := getExitCode opts 0 stepB.1, errCode := stepB.1, childCode := 0,
        command := some cmd, trace := Event.acquireSeDebug e1 :: stepB.2 }

/-- `wmain` (superUser.c lines 240-319) over the argument-token list:
parse the options, then on `h` print help and return `getExitCode(-1)`,
on an invalid option return `getExitCode(1)`, otherwise run
`wmainAfterParse`. -/
def wmain (args : List (List Char)) (env : Env) : WmainResult :=
  match parseArgs Options.default args with
  | ParseResult.help opts =>
    { exit := getExitCode opts 0 (-1), errCode := -1, childCode := 0,
      command := none, trace := [Event.printHelp] }
  | ParseResult.invalid opts =>
    { exit := getExitCode opts 0 1, errCode := 1, childCode := 0,
      command := none, trace := [Event.invalidOptionError] }
  | ParseResult.ok opts cmdOpt => wmainAfterParse opts cmdOpt env

/-- Whether an event is a `CreateProcessAsUser` call. -/
def Event.isCreate : Event → Bool
  | Event.createProcess _ _ _ => true
  | _ => false

/-- Whether an event is a successful `CreateProcessAsUser` call. -/
def Event.isSuccessfulCreate : Event → Bool
  | Event.createProcess _ _ ok => ok
  | _ => false

/-- Every `CreateProcessAsUser` call in the trace passes creation flags
containing `CREATE_SUSPENDED` (other events satisfy this vacuously). -/
def createSuspended : Event → Bool
  | Event.createProcess _ fl _ => decide (fl &&& CREATE_SUSPENDED ≠ 0)
  | _ => true

/-- A `CreateProcessAsUser` call in seamless shape: token is the derived
TrustedInstaller token and the creation flags are `0` (other events
satisfy this vacuously). -/
def seamlessCreateShape : Event → Bool
  | Event.createProcess tok fl _ =>
    tok == some Handle.tiToken && fl == 0
  | _ => true

/-- Whether an event is the `ResumeThread` call. -/
def isResume : Event → Bool
  | Event.resumeThread => true
  | _ => false

/-- Whether an event is the privilege customization of the child's own
token (`setAllPrivileges(hProcessToken, ...)`). -/
def isChildCustomize : Event → Bool
  | Event.setAllPrivileges Handle.childToken _ => true
  | _ => false

/-- Whether an event is the privilege customization of the derived
TrustedInstaller token (`setAllPrivileges(hTIToken, ...)`). -/
def isTICustomize : Event → Bool
  | Event.setAllPrivileges Handle.tiToken _ => true
  | _ => false

/-- Whether an event is the `SetTokenInformation` session-rebinding call. -/
def isSetSession : Event → Bool
  | Event.setTokenSessionId _ _ => true
  | _ => false

/-- `beforeFirst p q tr = true` iff scanning `tr` from the left, a
`p`-event occurs strictly before the first `q`-event (trivially true when
no `q`-event occurs).  Used to state ordering properties of traces. -/
def beforeFirst (p q : Event → Bool) : List Event → Bool
  | [] => true
  | e :: tr => if q e then false else if p e then true else beforeFirst p q tr

/-- A token that consists of a `/` or `-` marker followed by a nonempty
group of recognised non-help option flags. -/
def isPureFlagToken (t : List Char) : Bool :=
  match t with
  | m :: cs =>
    (m == '/' || m == '-') && !cs.isEmpty &&
      cs.all fun c => c == 'r' || c == 's' || c == 'v' || c == 'w'
  | [] => false

/-- A concrete all-successful environment, used to instantiate theorems
with hypotheses at a concrete input. -/
def env0 : Env :=
  { seDebugResult := 0, sysContextResult := 0, tiProcResult := 0,
    tiTokenResult := 0, activeConsoleSessionId := 1, setTokenInfoOk := true,
    createOk := true, createError := 0, openChildTokenOk := true,
    getExitCodeOk := true, childExitCode := 0 }

/-- Scanning a group of recognised non-help flags always completes, and
each flag simply sets its option bit: the result is the current options
value with each bit set iff it was already set or its flag occurs in the
group. -/
theorem parseFlags_pure (cs : List Char) (o : Options)
    (h : (cs.all fun c => c == 'r' || c == 's' || c == 'v' || c == 'w') = true) :
    parseFlags o cs = TokStep.done
      { bReturnCode := o.bReturnCode || cs.contains 'r',
        bSeamless := o.bSeamless || cs.contains 's',
        bVerbose := o.bVerbose || cs.contains 'v',
        bWait := o.bWait || cs.contains 'w' } := by
  induction cs generalizing o with
  | nil => simp [parseFlags, List.contains]
  | cons c cs ih =>
    rw [List.all_cons, Bool.and_eq_true] at h
    obtain ⟨hc, hrest⟩ := h
    have hc4 : ((c = 'r' ∨ c = 's') ∨ c = 'v') ∨ c = 'w' := by
      simpa using hc
    rcases hc4 with ((h1 | h1) | h1) | h1 <;> subst h1 <;>
      simp [parseFlags, ih _ hrest, List.contains_cons, Bool.or_assoc]

/-- Running the argument loop over a list of pure flag-group tokens
completes with no command found, and the resulting options value is the
pointwise union of the current options with the flags occurring anywhere
in the tokens. -/
theorem parseArgs_pure (toks : List (List Char)) (o : Options)
    (h : toks.all isPureFlagToken = true) :
    parseArgs o toks = ParseResult.ok
      { bReturnCode := o.bReturnCode || toks.any fun t => t.contains 'r',
        bSeamless := o.bSeamless || toks.any fun t => t.contains 's',
        bVerbose := o.bVerbose || toks.any fun t => t.contains 'v',
        bWait := o.bWait || toks.any fun t => t.contains 'w' } none := by
  induction toks generalizing o with
  | nil => simp [parseArgs]
  | cons t rest ih =>
    rw [List.all_cons, Bool.and_eq_true] at h
    obtain ⟨ht, hrest⟩ := h
    match t, ht with
    | [], ht => simp [isPureFlagToken] at ht
    | [m], ht => simp [isPureFlagToken] at ht
    | m :: c2 :: cs, ht =>
      rw [isPureFlagToken, Bool.and_eq_true, Bool.and_eq_true] at ht
      obtain ⟨⟨hm, -⟩, hcs⟩ := ht
      have hm2 : m = '/' ∨ m = '-' := by simpa using hm
      have hstep := parseFlags_pure (c2 :: cs) o hcs
      rcases hm2 with h1 | h1 <;> subst h1 <;>
        simp [parseArgs, hstep, ih _ hrest, List.contains_cons, Bool.or_assoc]

/-- C9: a bare one-character `/` or `-` argument is not an option: the
parser takes it as the first non-option token, so the command to execute
starts there, and no argument error is produced (the launch proceeds and
`wmain` records that command). -/
theorem bare_marker_token_is_command (opts : Options) (m : Char)
    (rest : List (List Char)) (env : Env) (_hm : m = '/' ∨ m = '-') :
    parseArgs opts ([m] :: rest) = ParseResult.ok opts (some ([m] :: rest)) ∧
    (wmain ([m] :: rest) env).command = some ([m] :: rest) := by
  refine ⟨rfl, ?_⟩
  show (wmainAfterParse Options.default (some ([m] :: rest)) env).command = _
  unfold wmainAfterParse
  by_cases h : env.seDebugResult = 0 <;>
    simp [h, Options.default]

/-- C9 witness: instantiation at the bare token `-` followed by a
command word. -/
theorem bare_marker_token_is_command_witness :
    (('-' : Char) = '/' ∨ ('-' : Char) = '-') ∧
    (parseArgs Options.default [['-'], ['x']] =
        ParseResult.ok Options.default (some [['-'], ['x']]) ∧
      (wmain [['-'], ['x']] env0).command = some [['-'], ['x']]) :=
  ⟨Or.inr rfl,
    bare_marker_token_is_command Options.default '-' [['x']] env0 (Or.inr rfl)⟩

/-- C4 counterexample: the uppercase form of a flag is not accepted.
`/W` is treated as an invalid option (argument error), while `/w` sets
the wait option, so the uppercase form does not have the same effect as
the lowercase form. -/
theorem uppercase_flag_not_accepted :
    parseArgs Options.default [['/', 'W']] = ParseResult.invalid Options.default ∧
    parseArgs Options.default [['/', 'w']] =
      ParseResult.ok { Options.default with bWait := true } none := by
  exact ⟨rfl, rfl⟩

/-- C4 amended: option flags are recognised case-sensitively.  Each
lowercase flag among `h, r, s, v, w` after a `/` or `-` marker is
accepted with its documented effect, while every uppercase form is
treated as an unknown option and stops parsing with the invalid-option
error. -/
theorem flags_lowercase_only :
    ((['H', 'R', 'S', 'V', 'W'].all fun c =>
        (parseArgs Options.default [['/', c]] ==
            ParseResult.invalid Options.default) &&
          (parseArgs Options.default [['-', c]] ==
            ParseResult.invalid Options.default)) = true) ∧
    parseArgs Options.default [['/', 'h']] = ParseResult.help Options.default ∧
    parseArgs Options.default [['/', 'r']] =
      ParseResult.ok { Options.default with bReturnCode := true } none ∧
    parseArgs Options.default [['/', 's']] =
      ParseResult.ok { Options.default with bSeamless := true } none ∧
    parseArgs Options.default [['/', 'v']] =
      ParseResult.ok { Options.default with bVerbose := true } none ∧
    parseArgs Options.default [['/', 'w']] =
      ParseResult.ok { Options.default with bWait := true } none := by
  exact ⟨by decide, rfl, rfl, rfl, rfl, rfl⟩

/-- C5: for every sequence of option tokens made only of recognised
option flags (`r`, `s`, `v`, `w`) after a `/` or `-` marker, parsing
succeeds with no command, and the resulting options value is the union
of the individual flags, independent of how the flags are grouped into
tokens or ordered. -/
theorem grouped_options_are_union (toks : List (List Char))
    (h : toks.all isPureFlagToken = true) :
    parseArgs Options.default toks = ParseResult.ok
      { bReturnCode := toks.any fun t => t.contains 'r',
        bSeamless := toks.any fun t => t.contains 's',
        bVerbose := toks.any fun t => t.contains 'v',
        bWait := toks.any fun t => t.contains 'w' } none := by
  simpa [Options.default] using parseArgs_pure toks Options.default h

/-- C5 witness: the grouped token `/wrs` parses, and (by two uses of the
evaluated union form) yields exactly the same options value as the
separated tokens `/w /r /s`. -/
theorem grouped_options_are_union_witness :
    ([['/', 'w', 'r', 's']].all isPureFlagToken = true) ∧
    parseArgs Options.default [['/', 'w', 'r', 's']] = ParseResult.ok
      { bReturnCode := [['/', 'w', 'r', 's']].any fun t => t.contains 'r',
        bSeamless := [['/', 'w', 'r', 's']].any fun t => t.contains 's',
        bVerbose := [['/', 'w', 'r', 's']].any fun t => t.contains 'v',
        bWait := [['/', 'w', 'r', 's']].any fun t => t.contains 'w' } none ∧
    parseArgs Options.default [['/', 'w', 'r', 's']] =
      parseArgs Options.default [['/', 'w'], ['/', 'r'], ['/', 's']] :=
  ⟨by decide, grouped_options_are_union [['/', 'w', 'r', 's']] (by decide),
    by decide⟩

/-- The Strategy A creation-flag word contains `CREATE_SUSPENDED`. -/
theorem createSuspended_strategyA_flags (t : Option Handle) (b : Bool) :
    createSuspended (Event.createProcess t
      (CREATE_SUSPENDED ||| EXTENDED_STARTUPINFO_PRESENT ||| CREATE_NEW_CONSOLE) b) =
      true := by
  rfl

/-- C1: in Strategy A (non-seamless mode) every process creation passes
the suspended flag, the `ResumeThread` call never occurs before the
privilege customization of the child's own token, and whenever the
creation call succeeds the thread is resumed — for every environment,
in particular regardless of whether opening or adjusting the child's
token succeeds. -/
theorem strategyA_suspended_resume_after_customization
    (opts : Options) (env : Env) (hA : opts.bSeamless = false) :
    (createTrustedInstallerProcess opts env).trace.all createSuspended = true ∧
    beforeFirst isChildCustomize isResume
      (createTrustedInstallerProcess opts env).trace = true ∧
    ((createTrustedInstallerProcess opts env).trace.any Event.isSuccessfulCreate = true →
      Event.resumeThread ∈ (createTrustedInstallerProcess opts env).trace) := by
  unfold createTrustedInstallerProcess
  by_cases h1 : env.tiProcResult = 0 <;>
    cases h2 : env.createOk <;>
    cases hw : opts.bWait <;>
      simp [h1, h2, hw, hA, createSuspended_strategyA_flags, createSuspended,
        beforeFirst, isChildCustomize, isResume, Event.isSuccessfulCreate] <;>
      decide

/-- C1 witness: instantiation at the default (non-seamless) options and
the all-successful environment. -/
theorem strategyA_suspended_resume_after_customization_witness :
    Options.default.bSeamless = false ∧
    ((createTrustedInstallerProcess Options.default env0).trace.all createSuspended = true ∧
     beforeFirst isChildCustomize isResume
       (createTrustedInstallerProcess Options.default env0).trace = true ∧
     ((createTrustedInstallerProcess Options.default env0).trace.any
          Event.isSuccessfulCreate = true →
        Event.resumeThread ∈ (createTrustedInstallerProcess Options.default env0).trace)) :=
  ⟨rfl, strategyA_suspended_resume_after_customization Options.default env0 rfl⟩

/-- C2: in Strategy B (seamless mode) no attribute list is ever built,
updated or deleted, every process creation passes creation flags `0`
(so neither the new-console nor the suspended flag) and uses the derived
TrustedInstaller token, and the privilege customization of that token
happens before any creation call. -/
theorem strategyB_direct_customized_token (opts : Options) (env : Env)
    (hB : opts.bSeamless = true) :
    Event.initAttrList ∉ (createTrustedInstallerProcess opts env).trace ∧
    Event.updateAttrParentProcess ∉ (createTrustedInstallerProcess opts env).trace ∧
    Event.deleteAttrList ∉ (createTrustedInstallerProcess opts env).trace ∧
    (createTrustedInstallerProcess opts env).trace.all seamlessCreateShape = true ∧
    beforeFirst isTICustomize Event.isCreate
      (createTrustedInstallerProcess opts env).trace = true := by
  unfold createTrustedInstallerProcess
  by_cases h1 : env.tiProcResult = 0 <;>
    by_cases h3 : env.tiTokenResult = 0 <;>
    by_cases hS : env.activeConsoleSessionId = 4294967295 <;>
    cases h2 : env.createOk <;>
    cases hw : opts.bWait <;>
      simp [h1, h2, h3, hS, hw, hB, seamlessCreateShape, beforeFirst,
        isTICustomize, Event.isCreate]

/-- C2 witness: instantiation at seamless-and-wait options and the
all-successful environment. -/
theorem strategyB_direct_customized_token_witness :
    (Options.mk false true false true).bSeamless = true ∧
    (Event.initAttrList ∉
       (createTrustedInstallerProcess (Options.mk false true false true) env0).trace ∧
     Event.updateAttrParentProcess ∉
       (createTrustedInstallerProcess (Options.mk false true false true) env0).trace ∧
     Event.deleteAttrList ∉
       (createTrustedInstallerProcess (Options.mk false true false true) env0).trace ∧
     (createTrustedInstallerProcess (Options.mk false true false true) env0).trace.all
        seamlessCreateShape = true ∧
     beforeFirst isTICustomize Event.isCreate
       (createTrustedInstallerProcess (Options.mk false true false true) env0).trace = true) :=
  ⟨rfl, strategyB_direct_customized_token (Options.mk false true false true) env0 rfl⟩

/-- C8: in seamless mode, when deriving the token from the privileged
process fails, `createTrustedInstallerProcess` returns exactly that
error code, and its whole activity is: open the process, fail to derive
the token, close the process handle — so the already-open handle is
released and nothing further (no session rebinding, no privilege work,
no process creation) happens. -/
theorem seamless_token_failure_cleanup (opts : Options) (env : Env)
    (hB : opts.bSeamless = true) (h1 : env.tiProcResult = 0)
    (hT : env.tiTokenResult ≠ 0) :
    (createTrustedInstallerProcess opts env).errCode = env.tiTokenResult ∧
    (createTrustedInstallerProcess opts env).trace =
      [Event.getTIProcess 0, Event.getTIToken env.tiTokenResult,
       Event.closeHandle Handle.tiProcess] := by
  unfold createTrustedInstallerProcess
  simp [hB, h1, hT]

/-- C8 witness: instantiation at seamless options and an environment in
which token derivation fails with code 5. -/
theorem seamless_token_failure_cleanup_witness :
    (Options.mk false true false true).bSeamless = true ∧
    ({ env0 with tiTokenResult := 5 } : Env).tiProcResult = 0 ∧
    ({ env0 with tiTokenResult := 5 } : Env).tiTokenResult ≠ 0 ∧
    ((createTrustedInstallerProcess (Options.mk false true false true)
        { env0 with tiTokenResult := 5 }).errCode =
      ({ env0 with tiTokenResult := 5 } : Env).tiTokenResult ∧
     (createTrustedInstallerProcess (Options.mk false true false true)
        { env0 with tiTokenResult := 5 }).trace =
      [Event.getTIProcess 0,
       Event.getTIToken ({ env0 with tiTokenResult := 5 } : Env).tiTokenResult,
       Event.closeHandle Handle.tiProcess]) :=
  ⟨rfl, rfl, by decide,
    seamless_token_failure_cleanup (Options.mk false true false true)
      { env0 with tiTokenResult := 5 } rfl rfl (by decide)⟩

/-- C10: in seamless mode after the token is derived, the session
rebinding call occurs exactly when a console session is active
(`WTSGetActiveConsoleSessionId` did not return `(DWORD) -1`), the launch
always proceeds to the privilege customization of the token and to the
creation call, and the outcome of the rebinding call influences neither
the returned error code nor the recorded child exit code. -/
theorem seamless_session_rebind_best_effort (opts : Options) (env : Env)
    (hB : opts.bSeamless = true) (h1 : env.tiProcResult = 0)
    (hT : env.tiTokenResult = 0) :
    ((createTrustedInstallerProcess opts env).trace.any isSetSession = true ↔
      env.activeConsoleSessionId ≠ 4294967295) ∧
    (createTrustedInstallerProcess opts env).trace.any isTICustomize = true ∧
    (createTrustedInstallerProcess opts env).trace.any Event.isCreate = true ∧
    (∀ b : Bool,
      (createTrustedInstallerProcess opts { env with setTokenInfoOk := b }).errCode =
        (createTrustedInstallerProcess opts env).errCode ∧
      (createTrustedInstallerProcess opts { env with setTokenInfoOk := b }).childCode =
        (createTrustedInstallerProcess opts env).childCode) := by
  unfold createTrustedInstallerProcess
  by_cases hS : env.activeConsoleSessionId = 4294967295 <;>
    cases h2 : env.createOk <;>
    cases hw : opts.bWait <;>
      simp [h1, h2, hS, hw, hB, hT, isSetSession, isTICustomize, Event.isCreate]

/-- C10 witness: instantiation at seamless options and the
all-successful environment (active session id 1). -/
theorem seamless_session_rebind_best_effort_witness :
    (Options.mk false true false true).bSeamless = true ∧
    env0.tiProcResult = 0 ∧ env0.tiTokenResult = 0 ∧
    (((createTrustedInstallerProcess (Options.mk false true false true) env0).trace.any
          isSetSession = true ↔
        env0.activeConsoleSessionId ≠ 4294967295) ∧
     (createTrustedInstallerProcess (Options.mk false true false true) env0).trace.any
        isTICustomize = true ∧
     (createTrustedInstallerProcess (Options.mk false true false true) env0).trace.any
        Event.isCreate = true ∧
     (∀ b : Bool,
       (createTrustedInstallerProcess (Options.mk false true false true)
           { env0 with setTokenInfoOk := b }).errCode =
         (createTrustedInstallerProcess (Options.mk false true false true) env0).errCode ∧
       (createTrustedInstallerProcess (Options.mk false true false true)
           { env0 with setTokenInfoOk := b }).childCode =
         (createTrustedInstallerProcess (Options.mk false true false true) env0).childCode)) :=
  ⟨rfl, rfl, rfl,
    seamless_session_rebind_best_effort (Options.mk false true false true) env0 rfl rfl rfl⟩

/-- The error code of `createTrustedInstallerProcess` is `0`, one of the
codes returned by the two tokens.c calls it makes, or the
process-creation code `4`. -/
theorem cti_errCode_cases (opts : Options) (env : Env) :
    (createTrustedInstallerProcess opts env).errCode = 0 ∨
    (createTrustedInstallerProcess opts env).errCode = env.tiProcResult ∨
    (createTrustedInstallerProcess opts env).errCode = env.tiTokenResult ∨
    (createTrustedInstallerProcess opts env).errCode = 4 := by
  unfold createTrustedInstallerProcess
  by_cases h1 : env.tiProcResult = 0 <;>
    by_cases hB : opts.bSeamless = true <;>
    by_cases h3 : env.tiTokenResult = 0 <;>
    cases h2 : env.createOk <;>
      simp [h1, h2, h3, hB]

/-- On failure `createTrustedInstallerProcess` never stores a child exit
code. -/
theorem cti_childCode_of_err (opts : Options) (env : Env)
    (h : (createTrustedInstallerProcess opts env).errCode ≠ 0) :
    (createTrustedInstallerProcess opts env).childCode = none := by
  unfold createTrustedInstallerProcess at h ⊢
  by_cases h1 : env.tiProcResult = 0 <;>
    by_cases hB : opts.bSeamless = true <;>
    by_cases h3 : env.tiTokenResult = 0 <;>
    cases h2 : env.createOk <;>
      simp_all

/-- On success with the wait option, when `GetExitCodeProcess` succeeds,
`createTrustedInstallerProcess` stores the awaited child's exit code. -/
theorem cti_childCode_of_ok (opts : Options) (env : Env)
    (h0 : (createTrustedInstallerProcess opts env).errCode = 0)
    (hw : opts.bWait = true) (hg : env.getExitCodeOk = true) :
    (createTrustedInstallerProcess opts env).childCode = some env.childExitCode := by
  unfold createTrustedInstallerProcess at h0 ⊢
  by_cases h1 : env.tiProcResult = 0 <;>
    by_cases hB : opts.bSeamless = true <;>
    by_cases h3 : env.tiTokenResult = 0 <;>
    cases h2 : env.createOk <;>
      simp_all

/-- C3: whenever parsing succeeds with option `r` or option `s` set but
option `w` not set, `wmain` exits with the argument-error code 1 (mapped
to `-(1000000 + 1)` when `r` is set), its internal error code is 1, and
its whole trace is the single consistency-error message: no privilege,
service, token or process-creation call is made. -/
theorem r_or_s_without_w_is_argument_error (args : List (List Char))
    (env : Env) (opts : Options) (cmdOpt : Option (List (List Char)))
    (hp : parseArgs Options.default args = ParseResult.ok opts cmdOpt)
    (hrs : opts.bReturnCode = true ∨ opts.bSeamless = true)
    (hw : opts.bWait = false) :
    (wmain args env).exit =
      (if opts.bReturnCode then -(EXIT_CODE_BASE + 1) else 1) ∧
    (wmain args env).errCode = 1 ∧
    (wmain args env).trace = [Event.requiresWError] := by
  unfold wmain wmainAfterParse
  rw [hp]
  rcases hrs with h | h <;>
    cases hr : opts.bReturnCode <;>
      simp_all [getExitCode, EXIT_CODE_BASE]

/-- C3 witness: instantiation at the single argument `/s` and the
all-successful environment. -/
theorem r_or_s_without_w_is_argument_error_witness :
    parseArgs Options.default [['/', 's']] =
      ParseResult.ok (Options.mk false true false false) none ∧
    ((Options.mk false true false false).bReturnCode = true ∨
      (Options.mk false true false false).bSeamless = true) ∧
    (Options.mk false true false false).bWait = false ∧
    ((wmain [['/', 's']] env0).exit =
        (if (Options.mk false true false false).bReturnCode then
          -(EXIT_CODE_BASE + 1) else 1) ∧
      (wmain [['/', 's']] env0).errCode = 1 ∧
      (wmain [['/', 's']] env0).trace = [Event.requiresWError]) :=
  ⟨rfl, Or.inr rfl, rfl,
    r_or_s_without_w_is_argument_error [['/', 's']] env0
      (Options.mk false true false false) none rfl (Or.inr rfl) rfl⟩

/-- With option `r`, a nonzero, nonnegative error code is mapped to
`-(EXIT_CODE_BASE + code)`. -/
theorem getExitCode_err (opts : Options) (e : Int) (hr : opts.bReturnCode = true)
    (h0 : e ≠ 0) (h1 : 0 ≤ e) :
    getExitCode opts 0 e = -(EXIT_CODE_BASE + e) := by
  have hm1 : e ≠ -1 := by omega
  simp [getExitCode, hr, h0, hm1]

/-- With option `r` and error code `0`, `getExitCode` returns the
recorded child exit code. -/
theorem getExitCode_ok_r (opts : Options) (n : Int)
    (hr : opts.bReturnCode = true) :
    getExitCode opts n 0 = n := by
  simp [getExitCode, hr]

/-- C6: with option `r` set, the program's exit code is the child's own
exit status exactly when the launch succeeds (internal error code `0`)
and the child's exit status was retrieved, and it is
`-(1000000 + errCode)` whenever the launch fails with internal error
code `errCode` (the nonnegativity hypotheses record that the external
calls return the positive error codes documented in superUser.c lines
30-41). -/
theorem exit_code_propagation_with_r (args : List (List Char)) (env : Env)
    (opts : Options) (cmdOpt : Option (List (List Char)))
    (hp : parseArgs Options.default args = ParseResult.ok opts cmdOpt)
    (hr : opts.bReturnCode = true)
    (henv1 : 0 ≤ env.seDebugResult) (henv2 : 0 ≤ env.sysContextResult)
    (henv3 : 0 ≤ env.tiProcResult) (henv4 : 0 ≤ env.tiTokenResult) :
    ((wmain args env).errCode = 0 → env.getExitCodeOk = true →
      (wmain args env).exit = intOfDword env.childExitCode) ∧
    ((wmain args env).errCode ≠ 0 →
      (wmain args env).exit = -(EXIT_CODE_BASE + (wmain args env).errCode)) := by
  have hwm : wmain args env = wmainAfterParse opts cmdOpt env := by
    unfold wmain; rw [hp]
  rw [hwm]
  unfold wmainAfterParse
  cases hcond : ((opts.bReturnCode || opts.bSeamless) && !opts.bWait)
  case false =>
    have hwait : opts.bWait = true := by
      simpa [hr] using hcond
    have hcti :
        ((createTrustedInstallerProcess opts env).errCode = 0 →
          env.getExitCodeOk = true →
          getExitCode opts
            (childCodeToInt (createTrustedInstallerProcess opts env).childCode)
            (createTrustedInstallerProcess opts env).errCode =
            intOfDword env.childExitCode) ∧
        ((createTrustedInstallerProcess opts env).errCode ≠ 0 →
          getExitCode opts
            (childCodeToInt (createTrustedInstallerProcess opts env).childCode)
            (createTrustedInstallerProcess opts env).errCode =
            -(EXIT_CODE_BASE + (createTrustedInstallerProcess opts env).errCode)) := by
      constructor
      · intro h0 hg
        rw [cti_childCode_of_ok opts env h0 hwait hg, h0]
        simp [getExitCode, hr, childCodeToInt]
      · intro hne
        rw [cti_childCode_of_err opts env hne]
        have hge0 : 0 ≤ (createTrustedInstallerProcess opts env).errCode := by
          rcases cti_errCode_cases opts env with h | h | h | h <;> rw [h] <;>
            first
            | exact henv3
            | exact henv4
            | norm_num
        exact getExitCode_err opts _ hr hne hge0
    by_cases hsb : env.seDebugResult = 0 ∧ opts.bSeamless = true
    · by_cases hs2 : env.sysContextResult = 0
      · simpa [hsb, hs2] using hcti
      · simp [hsb, hs2, getExitCode_err opts env.sysContextResult hr hs2 henv2]
    · by_cases hd : env.seDebugResult = 0
      · have hns : ¬ opts.bSeamless = true := fun hx => hsb ⟨hd, hx⟩
        simpa [hd, hns] using hcti
      · simp [hsb, hd, getExitCode_err opts env.seDebugResult hr hd henv1]
  case true =>
    simp only [if_pos rfl]
    refine ⟨by simp, fun _ => ?_⟩
    exact getExitCode_err opts 1 hr (by norm_num) (by norm_num)

/-- C6 witness: instantiation at arguments `/wr`, with an environment in
which every step succeeds and the awaited child exits with status 42. -/
theorem exit_code_propagation_with_r_witness :
    parseArgs Options.default [['/', 'w', 'r']] =
      ParseResult.ok (Options.mk true false false true) none ∧
    (Options.mk true false false true).bReturnCode = true ∧
    (0 ≤ ({ env0 with childExitCode := 42 } : Env).seDebugResult ∧
     0 ≤ ({ env0 with childExitCode := 42 } : Env).sysContextResult ∧
     0 ≤ ({ env0 with childExitCode := 42 } : Env).tiProcResult ∧
     0 ≤ ({ env0 with childExitCode := 42 } : Env).tiTokenResult) ∧
    (((wmain [['/', 'w', 'r']] { env0 with childExitCode := 42 }).errCode = 0 →
        ({ env0 with childExitCode := 42 } : Env).getExitCodeOk = true →
        (wmain [['/', 'w', 'r']] { env0 with childExitCode := 42 }).exit =
          intOfDword ({ env0 with childExitCode := 42 } : Env).childExitCode) ∧
      ((wmain [['/', 'w', 'r']] { env0 with childExitCode := 42 }).errCode ≠ 0 →
        (wmain [['/', 'w', 'r']] { env0 with childExitCode := 42 }).exit =
          -(EXIT_CODE_BASE +
            (wmain [['/', 'w', 'r']] { env0 with childExitCode := 42 }).errCode))) :=
  ⟨rfl, rfl, ⟨by decide, by decide, by decide, by decide⟩,
    exit_code_propagation_with_r [['/', 'w', 'r']]
      { env0 with childExitCode := 42 } (Options.mk true false false true) none
      rfl rfl (by decide) (by decide) (by decide) (by decide)⟩

/-- C7: with option `w` set and option `r` not set, whenever the launch
succeeds (internal error code `0`) the program's own exit code is `0`,
whatever exit status the awaited child recorded. -/
theorem w_without_r_exits_zero (args : List (List Char)) (env : Env)
    (opts : Options) (cmdOpt : Option (List (List Char)))
    (hp : parseArgs Options.default args = ParseResult.ok opts cmdOpt)
    (hwait : opts.bWait = true) (hnr : opts.bReturnCode = false)
    (h0 : (wmain args env).errCode = 0) :
    (wmain args env).exit = 0 := by
  have hwm : wmain args env = wmainAfterParse opts cmdOpt env := by
    unfold wmain; rw [hp]
  rw [hwm] at h0 ⊢
  unfold wmainAfterParse at h0 ⊢
  have hcond : ((opts.bReturnCode || opts.bSeamless) && !opts.bWait) = false := by
    simp [hwait]
  by_cases hsb : env.seDebugResult = 0 ∧ opts.bSeamless = true <;>
    by_cases hs2 : env.sysContextResult = 0 <;>
    by_cases hd : env.seDebugResult = 0 <;>
      simp_all [getExitCode]

/-- C7 witness: instantiation at the argument `/w` and an all-successful
environment whose awaited child exits with the nonzero status 7; the
launcher still exits 0. -/
theorem w_without_r_exits_zero_witness :
    parseArgs Options.default [['/', 'w']] =
      ParseResult.ok (Options.mk false false false true) none ∧
    (Options.mk false false false true).bWait = true ∧
    (Options.mk false false false true).bReturnCode = false ∧
    (wmain [['/', 'w']] { env0 with childExitCode := 7 }).errCode = 0 ∧
    (wmain [['/', 'w']] { env0 with childExitCode := 7 }).exit = 0 :=
  ⟨rfl, rfl, rfl, by decide,
    w_without_r_exits_zero [['/', 'w']] { env0 with childExitCode := 7 }
      (Options.mk false false false true) none rfl rfl rfl (by decide)⟩

end SuperUser
